import Mathlib

/-!
Shallow embedding of `build_LRC.py` (the Large Radiosonde Collection builder),
centred on `parse_zipped_text`: the per-station walker that groups header and
data lines, the fixed-width record decoder, the per-sounding assembler with its
derived quantities (dew point, wind components, launch elevation, timestamps).

Machine conventions used throughout the embedding:
* Python `//` and `%` (always applied with positive divisors here) are embedded
  as `Int.ediv` and `Int.emod`, which agree with Python floor division and
  modulo for positive divisors.
* A polars `Float64` cell is embedded as `Option`: `none` models NaN (the value
  every sentinel is replaced with), `some x` a finite value.  Arithmetic on
  such cells propagates `none`, mirroring IEEE NaN propagation.
* A Python `datetime` is embedded as the count of minutes since the civil epoch
  1970-01-01 00:00 (proleptic Gregorian, via the standard days-from-civil
  computation); `timedelta` addition and subtraction become integer addition on
  minutes, exactly as `datetime` behaves at minute resolution.
-/

namespace LRC

/-- Failure modes of `parse_zipped_text`, one constructor per `raise` site of
the Python code, plus `structuralError`, which models the `StructuralError`
demanded by the specification (station and line deficit); the code itself never
constructs it, which the claim theorems make precise. -/
inductive SoundingError where
  /-- A fixed-width field failed to cast to its integer dtype
  (`polars` strict cast, or Python `int()` on a header slice). -/
  | castError : SoundingError
  /-- `pl.read_csv` invoked on an empty byte string (no data lines). -/
  | noData : SoundingError
  /-- `raise ValueError('More than one surface record found')` (line 113). -/
  | moreThanOneSurfaceRecord : SoundingError
  /-- `datetime(...)` constructor `ValueError` (field out of range). -/
  | invalidDatetime : SoundingError
  /-- `timedelta(hours=nan, ...)` raises `ValueError` (line 147/149). -/
  | nanTimedelta : SoundingError
  /-- `polars` `ShapeError`: `with_columns` received a column whose length
  (`num_rec`) differs from the frame height (line 157). -/
  | shapeMismatch (expected : Int) (got : Nat) : SoundingError
  /-- `polars` `ColumnNotFoundError`: `df.drop` (strict by default) asked to
  drop a column that is not present (lines 126-127, after the loop of lines
  116-123 already removed it). -/
  | columnNotFound (col : String) : SoundingError
  /-- The specification's `StructuralError` carrying station and deficit. -/
  | structuralError (station : String) (deficit : Int) : SoundingError
deriving DecidableEq, Repr

/-- Whether an error is the specification's `StructuralError`. -/
def SoundingError.isStructural : SoundingError → Bool
  | .structuralError _ _ => true
  | _ => false

/-- Line 81: `pl.col(name).is_in([-9999, -8888])`, the sentinel test. -/
def isMissingSentinel (x : Int) : Bool :=
  x == -9999 || x == -8888

/-- Lines 80-82: `pl.when(col.is_in([-9999,-8888])).then(np.nan).otherwise(col)`
applied to every non-string column; `none` models the NaN. -/
def replaceSentinel (x : Int) : Option Int :=
  if isMissingSentinel x then none else some x

/-- One data line after the fixed-width split and integer cast (lines 50-78):
the thirteen IGRA2 fields, numeric fields as parsed integers and the three
quality flags as (space-stripped) strings. -/
structure RawRecord where
  major_level_indicator : Int
  minor_level_indicator : Int
  elapsed_time : Int
  air_pressure : Int
  pflag : String
  geopotential_height : Int
  zflag : String
  air_temperature : Int
  tflag : String
  relative_humidity : Int
  dewpoint_depression : Int
  wind_from_direction : Int
  wind_speed : Int
deriving DecidableEq, Repr

/-- The numeric cells of one record after sentinel replacement (lines 80-82),
unit conversion (lines 84-96) and the dew-point derivation (line 92), plus the
flag strings, which lines 80-82 leave untouched. -/
structure DecodedRecord where
  elapsed_time : Option Int
  air_pressure : Option ℚ
  pflag : String
  geopotential_height : Option ℚ
  zflag : String
  air_temperature : Option ℚ
  tflag : String
  relative_humidity : Option ℚ
  dewpoint_depression : Option ℚ
  wind_from_direction : Option ℚ
  wind_speed : Option ℚ
  dew_point_temperature : Option ℚ
deriving DecidableEq, Repr

/-- Lines 80-96: sentinel replacement followed by the unit conversions
(`air_pressure/100`, `air_temperature/10`, `wind_speed/10`) and the dew point
`air_temperature - dewpoint_depression/10` computed from the already-converted
temperature (line 92 runs after line 88). -/
def decodeRecord (r : RawRecord) : DecodedRecord :=
  let temp : Option ℚ := (replaceSentinel r.air_temperature).map (fun x => (x : ℚ) / 10)
  { elapsed_time := replaceSentinel r.elapsed_time
    air_pressure := (replaceSentinel r.air_pressure).map (fun x => (x : ℚ) / 100)
    pflag := r.pflag
    geopotential_height := (replaceSentinel r.geopotential_height).map (fun x => (x : ℚ))
    zflag := r.zflag
    air_temperature := temp
    tflag := r.tflag
    relative_humidity := (replaceSentinel r.relative_humidity).map (fun x => (x : ℚ))
    dewpoint_depression := (replaceSentinel r.dewpoint_depression).map (fun x => (x : ℚ))
    wind_from_direction := (replaceSentinel r.wind_from_direction).map (fun x => (x : ℚ))
    wind_speed := (replaceSentinel r.wind_speed).map (fun x => (x : ℚ) / 10)
    dew_point_temperature :=
      match temp, replaceSentinel r.dewpoint_depression with
      | some t, some dd => some (t - (dd : ℚ) / 10)
      | _, _ => none }

/-- `metpy.calc.wind_components(speed, direction)` (line 99): converts the
direction from degrees to radians and returns
`(-speed * sin(direction), -speed * cos(direction))`; a NaN speed or direction
yields NaN components. -/
noncomputable def wind_components (speed direction : Option ℝ) : Option ℝ × Option ℝ :=
  match speed, direction with
  | some s, some d =>
      (some (-(s * Real.sin (d * Real.pi / 180))), some (-(s * Real.cos (d * Real.pi / 180))))
  | _, _ => (none, none)

/-- The `eastward_wind` cell of one record (lines 99-104): the u-component of
`wind_components` applied to the converted wind speed and the direction. -/
noncomputable def eastward_wind (r : RawRecord) : Option ℝ :=
  (wind_components (((decodeRecord r).wind_speed).map (fun q => (q : ℝ)))
    (((decodeRecord r).wind_from_direction).map (fun q => (q : ℝ)))).1

/-- The `northward_wind` cell of one record (lines 99-104): the v-component. -/
noncomputable def northward_wind (r : RawRecord) : Option ℝ :=
  (wind_components (((decodeRecord r).wind_speed).map (fun q => (q : ℝ)))
    (((decodeRecord r).wind_from_direction).map (fun q => (q : ℝ)))).2

/-! ## Output schema (lines 115-127 and 156-165) -/

/-- The dataframe columns right before the drop loop of line 116, in order:
the thirteen decoded fields (lines 50-51) followed by the three derived columns
appended by lines 92, 101-104, each paired with the drop condition the loop of
lines 116-123 evaluates for it: a float column is dropped when all cells are
NaN, a string column when all cells are the empty string. -/
noncomputable def perLevelCols (rs : List RawRecord) : List (String × Bool) :=
  [("major_level_indicator", rs.all fun r => (replaceSentinel r.major_level_indicator).isNone),
   ("minor_level_indicator", rs.all fun r => (replaceSentinel r.minor_level_indicator).isNone),
   ("elapsed_time", rs.all fun r => ((decodeRecord r).elapsed_time).isNone),
   ("air_pressure", rs.all fun r => ((decodeRecord r).air_pressure).isNone),
   ("pflag", rs.all fun r => r.pflag == ""),
   ("geopotential_height", rs.all fun r => ((decodeRecord r).geopotential_height).isNone),
   ("zflag", rs.all fun r => r.zflag == ""),
   ("air_temperature", rs.all fun r => ((decodeRecord r).air_temperature).isNone),
   ("tflag", rs.all fun r => r.tflag == ""),
   ("relative_humidity", rs.all fun r => ((decodeRecord r).relative_humidity).isNone),
   ("dewpoint_depression", rs.all fun r => ((decodeRecord r).dewpoint_depression).isNone),
   ("wind_from_direction", rs.all fun r => ((decodeRecord r).wind_from_direction).isNone),
   ("wind_speed", rs.all fun r => ((decodeRecord r).wind_speed).isNone),
   ("dew_point_temperature", rs.all fun r => ((decodeRecord r).dew_point_temperature).isNone),
   ("eastward_wind", rs.all fun r => (eastward_wind r).isNone),
   ("northward_wind", rs.all fun r => (northward_wind r).isNone)]

/-- The broadcast columns appended, in keyword order, by the `with_columns`
call of lines 157-165. -/
def broadcastNames : List String :=
  ["site", "launch_valid_time", "release_time", "launch_lat", "launch_lon",
   "launch_msl", "record_valid"]

/-- One `df.drop(*toDrop)` call with the default strict behaviour of polars:
if any requested column is absent it raises `ColumnNotFoundError` naming it;
otherwise the requested columns are removed. -/
def dfDrop (cols : List String) (toDrop : List String) :
    Except SoundingError (List String) :=
  match toDrop.filter (fun d => !(cols.contains d)) with
  | [] => .ok (cols.filter (fun c => !(toDrop.contains c)))
  | missing :: _ => .error (.columnNotFound missing)

/-- The column names of the emitted per-sounding dataframe: the per-level
columns that survive the all-NaN/all-empty drop loop (lines 116-123) go
through the two explicit drops of lines 126 and 127 — each of which raises
`ColumnNotFoundError` when the loop already removed one of its columns — and
the seven broadcast columns are appended at the end (lines 157-165). -/
noncomputable def soundingColumns (rs : List RawRecord) :
    Except SoundingError (List String) :=
  let survivors := ((perLevelCols rs).filter (fun c => !c.2)).map Prod.fst
  match dfDrop survivors ["pflag", "zflag", "tflag"] with
  | .error e => .error e
  | .ok cols1 =>
    match dfDrop cols1
        ["major_level_indicator", "minor_level_indicator", "dewpoint_depression"] with
    | .error e => .error e
    | .ok cols2 => .ok (cols2 ++ broadcastNames)

/-- The fifteen-column schema the specification declares as the output
contract, in the specification's order (written from the spec, to be compared
against `soundingColumns`). -/
def specContractColumns : List String :=
  ["site", "launch_lat", "launch_lon", "launch_msl", "launch_valid_time",
   "release_time", "record_valid", "air_pressure", "geopotential_height",
   "air_temperature", "dew_point_temperature", "wind_from_direction",
   "wind_speed", "eastward_wind", "northward_wind"]

/-! ## Launch surface elevation (lines 106-113) -/

/-- Lines 106-113: filter the rows whose (sentinel-replaced) minor level
indicator equals 1 and read their `geopotential_height` cells; exactly one
candidate gives the launch elevation, zero gives NaN, and more than one raises
`ValueError('More than one surface record found')`. -/
def computeLaunchMsl (rs : List RawRecord) : Except SoundingError (Option Int) :=
  match (rs.filter (fun r => replaceSentinel r.minor_level_indicator == some 1)).map
      (fun r => replaceSentinel r.geopotential_height) with
  | [x] => .ok x
  | [] => .ok none
  | _ => .error .moreThanOneSurfaceRecord

/-! ## Datetime model

A `datetime` value is the number of minutes since 1970-01-01 00:00 in the
proleptic Gregorian calendar. -/

/-- Gregorian leap-year rule, as Python's `calendar`/`datetime` use it. -/
def isLeapYear (y : Int) : Bool :=
  y % 4 == 0 && (y % 100 != 0 || y % 400 == 0)

/-- Length of month `m` of year `y`. -/
def daysInMonth (y m : Int) : Int :=
  if m = 2 then (if isLeapYear y then 29 else 28)
  else if m = 4 ∨ m = 6 ∨ m = 9 ∨ m = 11 then 30
  else 31

/-- Day number of the civil date `y-m-d` counted from 1970-01-01 (the
standard days-from-civil computation for the proleptic Gregorian calendar).
`/` and `%` on `Int` are euclidean here, which agrees with floor division for
the positive divisors used. -/
def daysFromCivil (y m d : Int) : Int :=
  let y' := if m ≤ 2 then y - 1 else y
  let era := y' / 400
  let yoe := y' - era * 400
  let mp := (m + 9) % 12
  let doy := (153 * mp + 2) / 5 + d - 1
  let doe := yoe * 365 + yoe / 4 - yoe / 100 + doy
  era * 146097 + doe - 719468

/-- The `datetime(year, month, day, hour, minute)` constructor: validates each
field exactly as CPython does (`MINYEAR = 1`, `MAXYEAR = 9999`) and raises
`ValueError` otherwise; the value is in minutes since the epoch. -/
def mkDatetime (y m d h mi : Int) : Except SoundingError Int :=
  if 1 ≤ y ∧ y ≤ 9999 ∧ 1 ≤ m ∧ m ≤ 12 ∧ 1 ≤ d ∧ d ≤ daysInMonth y m
      ∧ 0 ≤ h ∧ h ≤ 23 ∧ 0 ≤ mi ∧ mi ≤ 59 then
    .ok (daysFromCivil y m d * 1440 + h * 60 + mi)
  else .error .invalidDatetime

/-- The `.date()` of a datetime value: its civil day number. -/
def dateOf (t : Int) : Int := t / 1440

/-- The `.hour` of a datetime value. -/
def hourOf (t : Int) : Int := (t % 1440) / 60

/-- The `.minute` of a datetime value. -/
def minuteOf (t : Int) : Int := t % 60

/-! ## Header, release time and per-record timestamps (lines 30-44, 129-154) -/

/-- The parsed header fields (lines 33-44).  Latitude and longitude already
carry the `/10000` scaling of lines 43-44. -/
structure RawHeader where
  station : String
  valid_year : Int
  valid_month : Int
  valid_day : Int
  valid_hour : Int
  release_hhmm : Int
  num_rec : Int
  pressure_source : String
  nonpressure_source : String
  launch_lat : ℚ
  launch_lon : ℚ
deriving DecidableEq, Repr

/-- Line 130: `launch_valid_time = dt(valid_year, valid_month, valid_day,
valid_hour)`; the hour field is passed to the constructor unmodified. -/
def mkLaunchValidTime (hdr : RawHeader) : Except SoundingError Int :=
  mkDatetime hdr.valid_year hdr.valid_month hdr.valid_day hdr.valid_hour 0

/-- Lines 131-140: if `release_hhmm` is the sentinel 9999 the release time is
NaN (`none`); otherwise a minutes digit pair of 99 is first rewritten to 00
(`release_hhmm -= 99`), the release datetime is built from `HHMM // 100` and
`HHMM % 100` on the nominal valid date, and when the nominal hour is 0 and the
release hour is at least 21 one day is subtracted. -/
def computeReleaseTime (hdr : RawHeader) (launchValid : Int) :
    Except SoundingError (Option Int) :=
  if hdr.release_hhmm = 9999 then .ok none
  else
    let hhmm := if hdr.release_hhmm % 100 = 99 then hdr.release_hhmm - 99
                else hdr.release_hhmm
    match mkDatetime hdr.valid_year hdr.valid_month hdr.valid_day
        (hhmm / 100) (hhmm % 100) with
    | .error e => .error e
    | .ok rt =>
        .ok (some (if hourOf launchValid = 0 ∧ 21 ≤ hourOf rt then rt - 1440 else rt))

/-- The minute count of `timedelta(hours=elapsed//100, minutes=elapsed%100)`
for one elapsed-time cell (lines 144-149); a NaN cell makes the `timedelta`
constructor raise `ValueError`. -/
def elapsedOffset (e : Option Int) : Except SoundingError Int :=
  match e with
  | none => .error .nanTimedelta
  | some v => .ok (60 * (v / 100) + v % 100)

/-- The list comprehension of lines 147/149:
`[base + timedelta(hours=e//100, minutes=e%100) for e in elapsed]`, evaluated
left to right, the first failing `timedelta` aborting the comprehension. -/
def recTimesList (base : Int) : List (Option Int) → Except SoundingError (List Int)
  | [] => .ok []
  | e :: rest =>
    match elapsedOffset e with
    | .error err => .error err
    | .ok off =>
      match recTimesList base rest with
      | .error err => .error err
      | .ok ts => .ok ((base + off) :: ts)

/-- Lines 142-154: when the `elapsed_time` column survived the drop loop (some
cell is not NaN), each record's timestamp is the release time if known else the
launch valid time, plus that record's elapsed offset; otherwise the release
time if known else the launch valid time is broadcast `num_rec` times
(`np.full(num_rec, ...)`). -/
def computeRecValidTimes (elapsed : List (Option Int)) (releaseTime : Option Int)
    (launchValid : Int) (numRec : Int) : Except SoundingError (List Int) :=
  let base := match releaseTime with
    | some rt => rt
    | none => launchValid
  if elapsed.all Option.isNone then
    .ok (List.replicate numRec.toNat base)
  else
    recTimesList base elapsed

/-! ## Sounding assembly (lines 30-166) -/

/-- The per-sounding output of one loop iteration: the decoded records plus
the broadcast header fields and the per-record timestamps of lines 157-165. -/
structure Sounding where
  records : List RawRecord
  site : String
  launch_valid_time : Int
  release_time : Option Int
  launch_lat : ℚ
  launch_lon : ℚ
  launch_msl : Option Int
  record_valid : List Int
deriving DecidableEq, Repr

/-- One iteration of the header loop after the dataframe is built, in source
order: launch elevation (lines 106-113), launch valid time (line 130), release
time (lines 131-140), per-record timestamps (lines 142-154) and finally the
`with_columns` broadcast of lines 157-165, which raises a `ShapeError` when the
declared `num_rec` differs from the number of decoded records. -/
def assembleSounding (hdr : RawHeader) (rs : List RawRecord) :
    Except SoundingError Sounding :=
  match computeLaunchMsl rs with
  | .error e => .error e
  | .ok msl =>
    match mkLaunchValidTime hdr with
    | .error e => .error e
    | .ok lv =>
      match computeReleaseTime hdr lv with
      | .error e => .error e
      | .ok rel =>
        match computeRecValidTimes (rs.map fun r => replaceSentinel r.elapsed_time)
            rel lv hdr.num_rec with
        | .error e => .error e
        | .ok recTimes =>
          if hdr.num_rec = (rs.length : Int) then
            .ok { records := rs
                  site := hdr.station
                  launch_valid_time := lv
                  release_time := rel
                  launch_lat := hdr.launch_lat
                  launch_lon := hdr.launch_lon
                  launch_msl := msl
                  record_valid := recTimes }
          else .error (.shapeMismatch hdr.num_rec rs.length)

/-! ## The walker over a station's text (lines 26-48, 166-169) -/

/-- Python slice `s[start : start+len]` of a text line. -/
def sliceField (s : String) (start len : Nat) : String :=
  (((s.toList).drop start).take len).asString

/-- `str.replace_all(' ', '')` of line 73: every space removed. -/
def stripSpaces (s : String) : String :=
  ((s.toList).filter (fun c => c ≠ ' ')).asString

/-- Decimal digit run parsed to a number; `none` when empty or when any
character is not a digit. -/
def parseNatDigits (cs : List Char) : Option Nat :=
  if cs.isEmpty then none
  else cs.foldl (fun acc c =>
    match acc with
    | none => none
    | some n => if c.isDigit then some (n * 10 + (c.toNat - 48)) else none) (some 0)

/-- Python `int(...)` on a header slice (surrounding spaces allowed, then an
optional sign and at least one digit), and equally the strict polars cast of a
space-stripped field to an integer dtype; failure models the corresponding
`ValueError`/cast error. -/
def pyInt (s : String) : Except SoundingError Int :=
  let cs := ((s.toList.dropWhile (fun c => c = ' ')).reverse.dropWhile
    (fun c => c = ' ')).reverse
  match cs with
  | '-' :: rest =>
    match parseNatDigits rest with
    | some n => .ok (-(n : Int))
    | none => .error .castError
  | '+' :: rest =>
    match parseNatDigits rest with
    | some n => .ok (n : Int)
    | none => .error .castError
  | _ =>
    match parseNatDigits cs with
    | some n => .ok (n : Int)
    | none => .error .castError

/-- Lines 33-44: the fixed header slices.  `station` is the raw
`header_line[1:11]` substring; latitude and longitude are parsed from their
integer-formatted slices and divided by 10000. -/
def parseHeader (line : String) : Except SoundingError RawHeader := do
  let vy ← pyInt (sliceField line 13 4)
  let vm ← pyInt (sliceField line 18 2)
  let vd ← pyInt (sliceField line 21 2)
  let vh ← pyInt (sliceField line 24 2)
  let hhmm ← pyInt (sliceField line 27 4)
  let nrec ← pyInt (sliceField line 32 4)
  let lat ← pyInt (sliceField line 55 7)
  let lon ← pyInt (sliceField line 64 7)
  pure { station := sliceField line 1 10
         valid_year := vy
         valid_month := vm
         valid_day := vd
         valid_hour := vh
         release_hhmm := hhmm
         num_rec := nrec
         pressure_source := sliceField line 37 8
         nonpressure_source := sliceField line 46 8
         launch_lat := (lat : ℚ) / 10000
         launch_lon := (lon : ℚ) / 10000 }

/-- Lines 50-78: slice one data line at the documented offsets, strip spaces
from every slice (line 73) and cast the numeric fields to integers (line 77);
the flag slices stay as (space-stripped) strings. -/
def decodeLine (line : String) : Except SoundingError RawRecord := do
  let mli ← pyInt (stripSpaces (sliceField line 0 1))
  let mnli ← pyInt (stripSpaces (sliceField line 1 1))
  let et ← pyInt (stripSpaces (sliceField line 3 5))
  let press ← pyInt (stripSpaces (sliceField line 9 6))
  let gph ← pyInt (stripSpaces (sliceField line 16 5))
  let temp ← pyInt (stripSpaces (sliceField line 22 5))
  let rh ← pyInt (stripSpaces (sliceField line 28 5))
  let dpdp ← pyInt (stripSpaces (sliceField line 34 5))
  let wdir ← pyInt (stripSpaces (sliceField line 40 5))
  let wspd ← pyInt (stripSpaces (sliceField line 46 6))
  pure { major_level_indicator := mli
         minor_level_indicator := mnli
         elapsed_time := et
         air_pressure := press
         pflag := stripSpaces (sliceField line 15 1)
         geopotential_height := gph
         zflag := stripSpaces (sliceField line 21 1)
         air_temperature := temp
         tflag := stripSpaces (sliceField line 27 1)
         relative_humidity := rh
         dewpoint_depression := dpdp
         wind_from_direction := wdir
         wind_speed := wspd }

/-- Line 28: the indices of the lines starting with `#`
(`np.strings.startswith(lines_arr, '#')`; the prefix is the single character
`#`, so the test is on the first character). -/
def headerIndices (lines : List String) : List Nat :=
  (List.range lines.length).filter (fun i => (lines.getD i "").toList.headD ' ' == '#')

/-- Line 45: the slice `lines_arr[header_idx+1 : header_idx+num_rec+1]` — the
group of data lines handed to the rest of the loop body.  Python slice
semantics silently truncate at the end of the list, and a negative count gives
the empty group. -/
def dataLinesFor (lines : List String) (headerIdx : Nat) (numRec : Int) :
    List String :=
  ((lines.drop (headerIdx + 1)).take numRec.toNat)

/-- The loop of lines 30-166 over one station text: for each header line,
parse it, take its slice of data lines, build the record batch (`pl.read_csv`
raises on an empty input, line 48) and assemble the sounding; any exception
aborts the whole station.  The result keeps one entry per header, in header
order (line 166, before the concatenation of line 168). -/
def parseStation (lines : List String) : Except SoundingError (List Sounding) :=
  (headerIndices lines).mapM (fun h => do
    let hdr ← parseHeader (lines.getD h "")
    let group := dataLinesFor lines h hdr.num_rec
    if group.isEmpty then
      .error .noData
    else do
      let rs ← group.mapM decodeLine
      assembleSounding hdr rs)

/-! ## Concrete inputs used to instantiate the theorems -/

/-- Decidable equality for `Except`, used to evaluate concrete runs. -/
instance {ε α : Type} [DecidableEq ε] [DecidableEq α] : DecidableEq (Except ε α) := fun a b =>
  match a, b with
  | .error x, .error y =>
      if h : x = y then .isTrue (by rw [h]) else .isFalse (fun hc => h (Except.error.inj hc))
  | .ok x, .ok y =>
      if h : x = y then .isTrue (by rw [h]) else .isFalse (fun hc => h (Except.ok.inj hc))
  | .error _, .ok _ => .isFalse (fun hc => Except.noConfusion hc)
  | .ok _, .error _ => .isFalse (fun hc => Except.noConfusion hc)

/-- A header line in IGRA2 layout declaring `num_rec = 2` for station
`USM0007252 0` at 2020-01-01 00Z, released at 23:57. -/
def hdrLine : String :=
  "#USM00072520 2020 01 01 00 2357 0002 ncdc-gts ncdc-gts  328600   -85790"

/-- A single well-formed data line: surface level (minor indicator 1), elapsed
time 30, pressure 101325 Pa, height 100 m, temperature 25.0 °C, relative
humidity 85.0, dewpoint depression 1.2, wind 180° at 5.1 m/s. -/
def dataLine : String :=
  "21    30 101325A  100B  250A  850    12   180     51"

/-- The record `decodeLine dataLine` yields: every field present. -/
def sampleRecord : RawRecord :=
  { major_level_indicator := 2, minor_level_indicator := 1, elapsed_time := 30
    air_pressure := 101325, pflag := "A", geopotential_height := 100, zflag := "B"
    air_temperature := 250, tflag := "A", relative_humidity := 850
    dewpoint_depression := 12, wind_from_direction := 180, wind_speed := 51 }

/-- A record whose numeric fields are all missing sentinels (a mix of -9999
and -8888) and whose flags are non-empty. -/
def sentinelRecord : RawRecord :=
  { major_level_indicator := -9999, minor_level_indicator := -9999
    elapsed_time := -9999, air_pressure := -8888, pflag := "P"
    geopotential_height := -9999, zflag := "Z", air_temperature := -9999
    tflag := "T", relative_humidity := -8888, dewpoint_depression := -8888
    wind_from_direction := -9999, wind_speed := -8888 }

/-- A surface record (minor level indicator 1) with height 850. -/
def surfaceRecord850 : RawRecord :=
  { major_level_indicator := 2, minor_level_indicator := 1, elapsed_time := -9999
    air_pressure := -9999, pflag := "", geopotential_height := 850, zflag := ""
    air_temperature := -9999, tflag := "", relative_humidity := -9999
    dewpoint_depression := -9999, wind_from_direction := -9999, wind_speed := -9999 }

/-- A non-surface record (minor level indicator 2). -/
def nonSurfaceRecord : RawRecord :=
  { major_level_indicator := 2, minor_level_indicator := 2, elapsed_time := -9999
    air_pressure := -9999, pflag := "", geopotential_height := 500, zflag := ""
    air_temperature := -9999, tflag := "", relative_humidity := -9999
    dewpoint_depression := -9999, wind_from_direction := -9999, wind_speed := -9999 }

/-- A header with the release-time sentinel 9999 and one declared record. -/
def hdr9999 : RawHeader :=
  { station := "TEST123456", valid_year := 2020, valid_month := 1, valid_day := 1
    valid_hour := 0, release_hhmm := 9999, num_rec := 1
    pressure_source := "", nonpressure_source := "", launch_lat := 0, launch_lon := 0 }

/-- A 0Z header of 2020-01-02 with a late-evening release time 23:57. -/
def hdrC6 : RawHeader :=
  { station := "TEST123456", valid_year := 2020, valid_month := 1, valid_day := 2
    valid_hour := 0, release_hhmm := 2357, num_rec := 1
    pressure_source := "", nonpressure_source := "", launch_lat := 0, launch_lon := 0 }

/-- A header whose nominal valid hour field decodes to 99. -/
def hdr99 : RawHeader :=
  { station := "TEST123456", valid_year := 2020, valid_month := 1, valid_day := 1
    valid_hour := 99, release_hhmm := 1200, num_rec := 1
    pressure_source := "", nonpressure_source := "", launch_lat := 0, launch_lon := 0 }

/-- A header declaring two records, to be paired with a single record. -/
def hdrC1 : RawHeader :=
  { station := "USM0007252", valid_year := 2020, valid_month := 1, valid_day := 1
    valid_hour := 0, release_hhmm := 2357, num_rec := 2
    pressure_source := "", nonpressure_source := "", launch_lat := 0, launch_lon := 0 }

/-- An arbitrary sounding value used to instantiate negated conclusions. -/
def dummySounding : Sounding :=
  { records := [], site := "", launch_valid_time := 0, release_time := none
    launch_lat := 0, launch_lon := 0, launch_msl := none, record_valid := [] }

/-- The sounding `assembleSounding hdr9999 [sampleRecord]` emits: launch valid
time 2020-01-01 00:00 (minute 26297280), no release time, surface height 100,
one record stamped 30 minutes after launch. -/
def sounding9999 : Sounding :=
  { records := [sampleRecord], site := "TEST123456", launch_valid_time := 26297280
    release_time := none, launch_lat := 0, launch_lon := 0
    launch_msl := some 100, record_valid := [26297310] }

/-- The seventeen-column schema the program emits for `[sampleRecord]`. -/
def sampleColumns : List String :=
  ["elapsed_time", "air_pressure", "geopotential_height", "air_temperature",
   "relative_humidity", "wind_from_direction", "wind_speed",
   "dew_point_temperature", "eastward_wind", "northward_wind", "site",
   "launch_valid_time", "release_time", "launch_lat", "launch_lon",
   "launch_msl", "record_valid"]

/-! ## Helper lemmas -/

theorem recTimesList_of_mem_none {base : Int} {l : List (Option Int)}
    (h : none ∈ l) : recTimesList base l = .error .nanTimedelta := by
  induction l with
  | nil => simp at h
  | cons e rest ih =>
    cases e with
    | none => rfl
    | some v =>
      have hrest : none ∈ rest := by
        rcases List.mem_cons.mp h with hc | hc
        · exact absurd hc (by simp)
        · exact hc
      simp [recTimesList, elapsedOffset, ih hrest]

theorem recTimesList_of_not_mem_none {base : Int} {l : List (Option Int)}
    (h : none ∉ l) :
    recTimesList base l
      = .ok (l.map fun e => base + (60 * (e.getD 0 / 100) + e.getD 0 % 100)) := by
  induction l with
  | nil => rfl
  | cons e rest ih =>
    cases e with
    | none => exact absurd (List.mem_cons_self _ _) h
    | some v =>
      have hrest : none ∉ rest := fun hm => h (List.mem_cons_of_mem _ hm)
      simp [recTimesList, elapsedOffset, ih hrest]

theorem recTimesList_error_inv {base : Int} {l : List (Option Int)}
    {e : SoundingError} (h : recTimesList base l = .error e) :
    e = .nanTimedelta := by
  induction l with
  | nil => simp [recTimesList] at h
  | cons x rest ih =>
    cases x with
    | none =>
      simp [recTimesList, elapsedOffset] at h
      exact h.symm
    | some v =>
      simp only [recTimesList, elapsedOffset] at h
      cases hr : recTimesList base rest with
      | error err =>
        rw [hr] at h
        exact ih (by rw [hr, Except.error.inj h])
      | ok ts =>
        rw [hr] at h
        exact absurd h (by simp)

theorem mkDatetime_ok_inv {y m d h mi t : Int} (hok : mkDatetime y m d h mi = .ok t) :
    t = daysFromCivil y m d * 1440 + h * 60 + mi
      ∧ 0 ≤ h ∧ h ≤ 23 ∧ 0 ≤ mi ∧ mi ≤ 59 := by
  unfold mkDatetime at hok
  split_ifs at hok with hc
  obtain ⟨-, -, -, -, -, -, h7, h8, h9, h10⟩ := hc
  exact ⟨(Except.ok.inj hok).symm, h7, h8, h9, h10⟩

theorem mkDatetime_error_inv {y m d h mi : Int} {e : SoundingError}
    (herr : mkDatetime y m d h mi = .error e) : e = .invalidDatetime := by
  unfold mkDatetime at herr
  split_ifs at herr
  exact (Except.error.inj herr).symm

theorem computeLaunchMsl_error_inv {rs : List RawRecord} {e : SoundingError}
    (h : computeLaunchMsl rs = .error e) : e = .moreThanOneSurfaceRecord := by
  unfold computeLaunchMsl at h
  split at h
  · exact absurd h (by simp)
  · exact absurd h (by simp)
  · exact (Except.error.inj h).symm

theorem computeReleaseTime_error_inv {hdr : RawHeader} {lv : Int} {e : SoundingError}
    (h : computeReleaseTime hdr lv = .error e) : e = .invalidDatetime := by
  unfold computeReleaseTime at h
  split_ifs at h
  all_goals
    simp only at h
    split at h
    case _ e1 he => exact (Except.error.inj h) ▸ mkDatetime_error_inv he
    case _ => exact Except.noConfusion h

theorem computeRecValidTimes_error_inv {elapsed : List (Option Int)}
    {rel : Option Int} {lv numRec : Int} {e : SoundingError}
    (h : computeRecValidTimes elapsed rel lv numRec = .error e) :
    e = .nanTimedelta := by
  unfold computeRecValidTimes at h
  split_ifs at h
  simp only at h
  exact recTimesList_error_inv h

theorem assembleSounding_ok_inv {hdr : RawHeader} {rs : List RawRecord}
    {s : Sounding} (hok : assembleSounding hdr rs = .ok s) :
    ∃ msl lv rel recTimes,
      computeLaunchMsl rs = .ok msl
      ∧ mkLaunchValidTime hdr = .ok lv
      ∧ computeReleaseTime hdr lv = .ok rel
      ∧ computeRecValidTimes (rs.map fun r => replaceSentinel r.elapsed_time)
          rel lv hdr.num_rec = .ok recTimes
      ∧ hdr.num_rec = (rs.length : Int)
      ∧ s = { records := rs, site := hdr.station, launch_valid_time := lv
              release_time := rel, launch_lat := hdr.launch_lat
              launch_lon := hdr.launch_lon, launch_msl := msl
              record_valid := recTimes } := by
  unfold assembleSounding at hok
  cases h1 : computeLaunchMsl rs with
  | error e => simp only [h1] at hok; exact Except.noConfusion hok
  | ok msl =>
    simp only [h1] at hok
    cases h2 : mkLaunchValidTime hdr with
    | error e => simp only [h2] at hok; exact Except.noConfusion hok
    | ok lv =>
      simp only [h2] at hok
      cases h3 : computeReleaseTime hdr lv with
      | error e => simp only [h3] at hok; exact Except.noConfusion hok
      | ok rel =>
        simp only [h3] at hok
        cases h4 : computeRecValidTimes (rs.map fun r => replaceSentinel r.elapsed_time)
            rel lv hdr.num_rec with
        | error e => simp only [h4] at hok; exact Except.noConfusion hok
        | ok recTimes =>
          simp only [h4] at hok
          split_ifs at hok with h5
          exact ⟨msl, lv, rel, recTimes, rfl, rfl, h3, h4, h5,
            (Except.ok.inj hok).symm⟩

theorem assembleSounding_error_inv {hdr : RawHeader} {rs : List RawRecord}
    {e : SoundingError} (herr : assembleSounding hdr rs = .error e) :
    e.isStructural = false := by
  unfold assembleSounding at herr
  cases h1 : computeLaunchMsl rs with
  | error e1 =>
    simp only [h1] at herr
    rw [← Except.error.inj herr, computeLaunchMsl_error_inv h1]
    rfl
  | ok msl =>
    simp only [h1] at herr
    cases h2 : mkLaunchValidTime hdr with
    | error e2 =>
      simp only [h2] at herr
      rw [← Except.error.inj herr, mkDatetime_error_inv h2]
      rfl
    | ok lv =>
      simp only [h2] at herr
      cases h3 : computeReleaseTime hdr lv with
      | error e3 =>
        simp only [h3] at herr
        rw [← Except.error.inj herr, computeReleaseTime_error_inv h3]
        rfl
      | ok rel =>
        simp only [h3] at herr
        cases h4 : computeRecValidTimes (rs.map fun r => replaceSentinel r.elapsed_time)
            rel lv hdr.num_rec with
        | error e4 =>
          simp only [h4] at herr
          rw [← Except.error.inj herr, computeRecValidTimes_error_inv h4]
          rfl
        | ok recTimes =>
          simp only [h4] at herr
          split_ifs at herr
          rw [← Except.error.inj herr]
          rfl

theorem dfDrop_ok_inv {cols toDrop res : List String}
    (h : dfDrop cols toDrop = .ok res) :
    res = cols.filter (fun c => !(toDrop.contains c)) := by
  unfold dfDrop at h
  split at h
  · exact (Except.ok.inj h).symm
  · exact Except.noConfusion h

theorem soundingColumns_ok_inv {rs : List RawRecord} {cols : List String}
    (h : soundingColumns rs = .ok cols) :
    cols = (((((perLevelCols rs).filter (fun c => !c.2)).map Prod.fst).filter
        (fun c => !((["pflag", "zflag", "tflag"] : List String).contains c))).filter
        (fun c => !((["major_level_indicator", "minor_level_indicator",
          "dewpoint_depression"] : List String).contains c)))
      ++ broadcastNames := by
  unfold soundingColumns at h
  simp only at h
  cases h1 : dfDrop (((perLevelCols rs).filter (fun c => !c.2)).map Prod.fst)
      ["pflag", "zflag", "tflag"] with
  | error e => simp only [h1] at h; exact Except.noConfusion h
  | ok cols1 =>
    simp only [h1] at h
    cases h2 : dfDrop cols1
        ["major_level_indicator", "minor_level_indicator", "dewpoint_depression"] with
    | error e => simp only [h2] at h; exact Except.noConfusion h
    | ok cols2 =>
      simp only [h2] at h
      rw [← Except.ok.inj h, dfDrop_ok_inv h2, dfDrop_ok_inv h1]

theorem eastward_wind_isNone (r : RawRecord) :
    (eastward_wind r).isNone
      = (((decodeRecord r).wind_speed).isNone || ((decodeRecord r).wind_from_direction).isNone) := by
  unfold eastward_wind wind_components
  cases (decodeRecord r).wind_speed <;> cases (decodeRecord r).wind_from_direction <;> simp

theorem northward_wind_isNone (r : RawRecord) :
    (northward_wind r).isNone
      = (((decodeRecord r).wind_speed).isNone || ((decodeRecord r).wind_from_direction).isNone) := by
  unfold northward_wind wind_components
  cases (decodeRecord r).wind_speed <;> cases (decodeRecord r).wind_from_direction <;> simp

/-! ## Claim theorems -/

/-- Claim C7: a parsed integer equal to -9999 or -8888 is replaced by the
missing marker and never survives as the literal sentinel; any other parsed
value passes through the replacement unchanged; and the flag (string) columns
of a decoded record are never sentinel-replaced. -/
theorem claim7_sentinel_replacement (x : Int) (r : RawRecord) :
    (isMissingSentinel x = true → replaceSentinel x = none)
    ∧ (isMissingSentinel x = false → replaceSentinel x = some x)
    ∧ replaceSentinel x ≠ some (-9999)
    ∧ replaceSentinel x ≠ some (-8888)
    ∧ (isMissingSentinel r.elapsed_time = true → (decodeRecord r).elapsed_time = none)
    ∧ (isMissingSentinel r.air_pressure = true → (decodeRecord r).air_pressure = none)
    ∧ (isMissingSentinel r.geopotential_height = true →
        (decodeRecord r).geopotential_height = none)
    ∧ (isMissingSentinel r.air_temperature = true → (decodeRecord r).air_temperature = none)
    ∧ (isMissingSentinel r.relative_humidity = true → (decodeRecord r).relative_humidity = none)
    ∧ (isMissingSentinel r.dewpoint_depression = true →
        (decodeRecord r).dewpoint_depression = none)
    ∧ (isMissingSentinel r.wind_from_direction = true →
        (decodeRecord r).wind_from_direction = none)
    ∧ (isMissingSentinel r.wind_speed = true → (decodeRecord r).wind_speed = none)
    ∧ (decodeRecord r).pflag = r.pflag
    ∧ (decodeRecord r).zflag = r.zflag
    ∧ (decodeRecord r).tflag = r.tflag := by
  refine ⟨fun h => by simp [replaceSentinel, h], fun h => by simp [replaceSentinel, h],
    ?_, ?_, fun h => by simp [decodeRecord, replaceSentinel, h],
    fun h => by simp [decodeRecord, replaceSentinel, h],
    fun h => by simp [decodeRecord, replaceSentinel, h],
    fun h => by simp [decodeRecord, replaceSentinel, h],
    fun h => by simp [decodeRecord, replaceSentinel, h],
    fun h => by simp [decodeRecord, replaceSentinel, h],
    fun h => by simp [decodeRecord, replaceSentinel, h],
    fun h => by simp [decodeRecord, replaceSentinel, h], rfl, rfl, rfl⟩
  · unfold replaceSentinel isMissingSentinel
    split_ifs with hs
    · simp
    · simp only [ne_eq, Option.some.injEq]
      intro hx
      simp [hx] at hs
  · unfold replaceSentinel isMissingSentinel
    split_ifs with hs
    · simp
    · simp only [ne_eq, Option.some.injEq]
      intro hx
      simp [hx] at hs

/-- Claim C7 witness: at the concrete sentinel value -9999 and the concrete
all-sentinel record, the replacement yields the missing marker and the flag
strings survive untouched. -/
theorem claim7_witness :
    isMissingSentinel (-9999) = true ∧ replaceSentinel (-9999) = none
    ∧ isMissingSentinel sentinelRecord.air_pressure = true
    ∧ (decodeRecord sentinelRecord).air_pressure = none
    ∧ (decodeRecord sentinelRecord).pflag = sentinelRecord.pflag :=
  ⟨by decide, (claim7_sentinel_replacement (-9999) sentinelRecord).1 (by decide),
    by decide,
    (claim7_sentinel_replacement (-9999) sentinelRecord).2.2.2.2.2.1 (by decide),
    (claim7_sentinel_replacement (-9999) sentinelRecord).2.2.2.2.2.2.2.2.2.2.2.2.1⟩

/-- Claim C8: for non-missing raw fields the emitted values are
`air_pressure/100`, `air_temperature/10`, `wind_speed/10`, and the dew point is
the converted temperature minus the raw tenths-unit dewpoint depression divided
by 10; missing inputs yield missing outputs for the affected derived values. -/
theorem claim8_unit_conversion (r : RawRecord) :
    (isMissingSentinel r.air_pressure = false →
      (decodeRecord r).air_pressure = some ((r.air_pressure : ℚ) / 100))
    ∧ (isMissingSentinel r.air_temperature = false →
      (decodeRecord r).air_temperature = some ((r.air_temperature : ℚ) / 10))
    ∧ (isMissingSentinel r.wind_speed = false →
      (decodeRecord r).wind_speed = some ((r.wind_speed : ℚ) / 10))
    ∧ (isMissingSentinel r.air_temperature = false →
        isMissingSentinel r.dewpoint_depression = false →
      (decodeRecord r).dew_point_temperature
        = some ((r.air_temperature : ℚ) / 10 - (r.dewpoint_depression : ℚ) / 10))
    ∧ (isMissingSentinel r.air_pressure = true → (decodeRecord r).air_pressure = none)
    ∧ (isMissingSentinel r.air_temperature = true → (decodeRecord r).air_temperature = none)
    ∧ (isMissingSentinel r.wind_speed = true → (decodeRecord r).wind_speed = none)
    ∧ (isMissingSentinel r.air_temperature = true →
        (decodeRecord r).dew_point_temperature = none)
    ∧ (isMissingSentinel r.dewpoint_depression = true →
        (decodeRecord r).dew_point_temperature = none) := by
  refine ⟨fun h => by simp [decodeRecord, replaceSentinel, h],
    fun h => by simp [decodeRecord, replaceSentinel, h],
    fun h => by simp [decodeRecord, replaceSentinel, h],
    fun h1 h2 => by simp [decodeRecord, replaceSentinel, h1, h2],
    fun h => by simp [decodeRecord, replaceSentinel, h],
    fun h => by simp [decodeRecord, replaceSentinel, h],
    fun h => by simp [decodeRecord, replaceSentinel, h],
    fun h => by simp [decodeRecord, replaceSentinel, h],
    fun h => by simp [decodeRecord, replaceSentinel, h]⟩

/-- Claim C8 witness: on the concrete record (pressure 101325, temperature
25.0 °C, dewpoint depression 1.2, wind speed 5.1 m/s) the conversions produce
the expected quotients. -/
theorem claim8_witness :
    isMissingSentinel sampleRecord.air_pressure = false
    ∧ (decodeRecord sampleRecord).air_pressure = some ((101325 : ℚ) / 100)
    ∧ (decodeRecord sampleRecord).air_temperature = some ((250 : ℚ) / 10)
    ∧ (decodeRecord sampleRecord).wind_speed = some ((51 : ℚ) / 10)
    ∧ (decodeRecord sampleRecord).dew_point_temperature
        = some ((250 : ℚ) / 10 - (12 : ℚ) / 10) :=
  ⟨by decide, (claim8_unit_conversion sampleRecord).1 (by decide),
    (claim8_unit_conversion sampleRecord).2.1 (by decide),
    (claim8_unit_conversion sampleRecord).2.2.1 (by decide),
    (claim8_unit_conversion sampleRecord).2.2.2.1 (by decide) (by decide)⟩

/-- Claim C9: the wind components satisfy `eastward = -s*sin(radians(d))` and
`northward = -s*cos(radians(d))`; in particular direction 0 gives `(0, -s)`,
90 gives `(-s, 0)`, 180 gives `(0, s)` and 270 gives `(s, 0)`; a missing speed
or direction gives missing components, and the per-record emitted cells are
exactly the two components. -/
theorem claim9_wind_components (s d : ℝ) :
    wind_components (some s) (some d)
      = (some (-(s * Real.sin (d * Real.pi / 180))),
         some (-(s * Real.cos (d * Real.pi / 180))))
    ∧ wind_components (some s) (some 0) = (some 0, some (-s))
    ∧ wind_components (some s) (some 90) = (some (-s), some 0)
    ∧ wind_components (some s) (some 180) = (some 0, some s)
    ∧ wind_components (some s) (some 270) = (some s, some 0)
    ∧ wind_components none (some d) = (none, none)
    ∧ wind_components (some s) none = (none, none)
    ∧ wind_components none none = (none, none)
    ∧ (∀ r : RawRecord,
        eastward_wind r
          = (wind_components (((decodeRecord r).wind_speed).map (fun q => (q : ℝ)))
              (((decodeRecord r).wind_from_direction).map (fun q => (q : ℝ)))).1
        ∧ northward_wind r
          = (wind_components (((decodeRecord r).wind_speed).map (fun q => (q : ℝ)))
              (((decodeRecord r).wind_from_direction).map (fun q => (q : ℝ)))).2) := by
  have h0 : (0 : ℝ) * Real.pi / 180 = 0 := by ring
  have h90 : (90 : ℝ) * Real.pi / 180 = Real.pi / 2 := by ring
  have h180 : (180 : ℝ) * Real.pi / 180 = Real.pi := by ring
  have h270 : (270 : ℝ) * Real.pi / 180 = Real.pi / 2 + Real.pi := by ring
  refine ⟨rfl, ?_, ?_, ?_, ?_, rfl, rfl, rfl, fun r => ⟨rfl, rfl⟩⟩
  · simp [wind_components, h0]
  · simp [wind_components, h90]
  · simp [wind_components, h180]
  · simp [wind_components, h270, Real.sin_add_pi, Real.cos_add_pi]

/-- Claim C4: exactly one record with minor level indicator 1 makes its
geopotential height the launch elevation; zero such records make the launch
elevation missing; two or more raise the ambiguity error. -/
theorem claim4_launch_msl (rs : List RawRecord) :
    (∀ r : RawRecord,
      rs.filter (fun x => replaceSentinel x.minor_level_indicator == some 1) = [r] →
      computeLaunchMsl rs = .ok (replaceSentinel r.geopotential_height))
    ∧ (rs.filter (fun x => replaceSentinel x.minor_level_indicator == some 1) = [] →
      computeLaunchMsl rs = .ok none)
    ∧ (2 ≤ (rs.filter
          (fun x => replaceSentinel x.minor_level_indicator == some 1)).length →
      computeLaunchMsl rs = .error .moreThanOneSurfaceRecord) := by
  refine ⟨fun r hr => ?_, fun hr => ?_, fun hr => ?_⟩
  · unfold computeLaunchMsl
    rw [hr]
    rfl
  · unfold computeLaunchMsl
    rw [hr]
    rfl
  · unfold computeLaunchMsl
    rcases hl : rs.filter (fun x => replaceSentinel x.minor_level_indicator == some 1) with
      _ | ⟨a, _ | ⟨b, tl⟩⟩
    · rw [hl] at hr
      simp at hr
    · rw [hl] at hr
      simp at hr
    · rw [hl]
      rfl

/-- Claim C4 witness: one surface record with height 850 yields launch
elevation 850; no surface record yields a missing elevation; two surface
records raise the ambiguity error. -/
theorem claim4_witness :
    computeLaunchMsl [surfaceRecord850, nonSurfaceRecord] = .ok (some 850)
    ∧ computeLaunchMsl [nonSurfaceRecord] = .ok none
    ∧ computeLaunchMsl [surfaceRecord850, sampleRecord]
        = .error .moreThanOneSurfaceRecord :=
  ⟨by
    have h := (claim4_launch_msl [surfaceRecord850, nonSurfaceRecord]).1
      surfaceRecord850 (by decide)
    rw [h]
    decide,
   (claim4_launch_msl [nonSurfaceRecord]).2.1 (by decide),
   (claim4_launch_msl [surfaceRecord850, sampleRecord]).2.2 (by decide)⟩

/-- Claim C10: a sounding whose elapsed-time column mixes present and missing
cells makes the per-record timestamp computation raise the NaN `timedelta`
error instead of emitting any timestamps. -/
theorem claim10_mixed_elapsed (elapsed : List (Option Int)) (rel : Option Int)
    (lv numRec : Int) (hsome : ∃ e ∈ elapsed, e.isSome) (hnone : none ∈ elapsed) :
    computeRecValidTimes elapsed rel lv numRec = .error .nanTimedelta := by
  obtain ⟨e, hmem, hs⟩ := hsome
  unfold computeRecValidTimes
  have hall : elapsed.all Option.isNone = false := by
    rcases hal : elapsed.all Option.isNone with _ | _
    · rfl
    · have := (List.all_eq_true.mp hal) e hmem
      rw [Option.isSome_iff_exists] at hs
      obtain ⟨v, hv⟩ := hs
      simp [hv] at this
  rw [hall]
  simp only [Bool.false_eq_true, if_false]
  exact recTimesList_of_mem_none hnone

/-- Claim C10 witness: one present cell (30) and one missing cell produce the
NaN `timedelta` error. -/
theorem claim10_witness :
    (∃ e ∈ [some (30 : Int), none], e.isSome) ∧ none ∈ [some (30 : Int), none]
    ∧ computeRecValidTimes [some (30 : Int), none] none 26297280 2
        = .error .nanTimedelta :=
  ⟨⟨some 30, by simp, by simp⟩, by simp,
    claim10_mixed_elapsed [some 30, none] none 26297280 2
      ⟨some 30, by simp, by simp⟩ (by simp)⟩

/-- Claim C2 counterexample: the header whose nominal valid hour field decodes
to 99 does not get hour 0; constructing its launch valid time raises the
datetime range error, refuting the claimed 99-to-0 normalization. -/
theorem claim2_counterexample :
    mkLaunchValidTime hdr99 = .error .invalidDatetime := by decide

/-- Claim C2 (amended): a nominal valid hour of 99 is passed unmodified to the
datetime constructor, which rejects it, so no launch valid time and no sounding
is produced for such a header. -/
theorem claim2_amended (hdr : RawHeader) (h99 : hdr.valid_hour = 99) :
    mkLaunchValidTime hdr = .error .invalidDatetime
    ∧ ∀ (rs : List RawRecord) (s : Sounding), assembleSounding hdr rs ≠ .ok s := by
  have herr : mkLaunchValidTime hdr = .error .invalidDatetime := by
    unfold mkLaunchValidTime mkDatetime
    rw [h99]
    split_ifs with hc
    · exact absurd hc (by omega)
    · rfl
  refine ⟨herr, fun rs s hok => ?_⟩
  obtain ⟨msl, lv, rel, ts, -, h2, -⟩ := assembleSounding_ok_inv hok
  rw [herr] at h2
  exact Except.noConfusion h2

/-- Claim C2 (amended) witness: the concrete hour-99 header errors out. -/
theorem claim2_amended_witness :
    hdr99.valid_hour = 99 ∧ mkLaunchValidTime hdr99 = .error .invalidDatetime :=
  ⟨by decide, (claim2_amended hdr99 (by decide)).1⟩

/-- Claim C6: for a non-sentinel release HHMM the release hour is `HHMM // 100`
and the minute is `HHMM % 100` with a minutes value of 99 decoded as 00, and
the release date is one day before the nominal valid date exactly when the
nominal hour is 0 and the decoded release hour is at least 21. -/
theorem claim6_release_decode (hdr : RawHeader) (lv rt : Int)
    (h9 : hdr.release_hhmm ≠ 9999)
    (hlv : mkLaunchValidTime hdr = .ok lv)
    (hrt : computeReleaseTime hdr lv = .ok (some rt)) :
    hourOf rt = hdr.release_hhmm / 100
    ∧ minuteOf rt
        = (if hdr.release_hhmm % 100 = 99 then 0 else hdr.release_hhmm % 100)
    ∧ dateOf rt
        = (if hdr.valid_hour = 0 ∧ 21 ≤ hdr.release_hhmm / 100
           then dateOf lv - 1 else dateOf lv) := by
  unfold mkLaunchValidTime at hlv
  obtain ⟨hlveq, hvh0, hvh23, -, -⟩ := mkDatetime_ok_inv hlv
  unfold computeReleaseTime at hrt
  split_ifs at hrt with h9999 hmm99
  · exact absurd h9999 h9
  all_goals
    simp only at hrt
    split at hrt
    case _ e1 he => exact Except.noConfusion hrt
    case _ rt0 hmk =>
      obtain ⟨hrt0eq, hq0, hq23, hm0, hm59⟩ := mkDatetime_ok_inv hmk
      have hrteq : rt = if hourOf lv = 0 ∧ 21 ≤ hourOf rt0 then rt0 - 1440 else rt0 :=
        (Option.some.inj (Except.ok.inj hrt)).symm
      subst hrteq
      refine ⟨?_, ?_, ?_⟩ <;>
      · simp only [hourOf, minuteOf, dateOf]
        split_ifs <;> omega

/-- Claim C6 witness: the 0Z header of 2020-01-02 with release 23:57 decodes
to hour 23, minute 57, and its release date is one day before the nominal
valid date. -/
theorem claim6_witness :
    hdrC6.release_hhmm ≠ 9999
    ∧ mkLaunchValidTime hdrC6 = .ok 26298720
    ∧ computeReleaseTime hdrC6 26298720 = .ok (some 26298717)
    ∧ hourOf 26298717 = hdrC6.release_hhmm / 100
    ∧ minuteOf 26298717
        = (if hdrC6.release_hhmm % 100 = 99 then 0 else hdrC6.release_hhmm % 100)
    ∧ dateOf 26298717
        = (if hdrC6.valid_hour = 0 ∧ 21 ≤ hdrC6.release_hhmm / 100
           then dateOf 26298720 - 1 else dateOf 26298720) := by
  have h := claim6_release_decode hdrC6 26298720 26298717 (by decide) (by decide) (by decide)
  exact ⟨by decide, by decide, by decide, h.1, h.2.1, h.2.2⟩

/-- Claim C5: a release HHMM equal to the sentinel 9999 makes the emitted
release time missing, and every record's timestamp is derived from the launch
valid time: launch plus the record's elapsed offset when the sounding carries
elapsed times, otherwise the launch valid time broadcast to every record. -/
theorem claim5_release_9999 (hdr : RawHeader) (rs : List RawRecord) (s : Sounding)
    (h9 : hdr.release_hhmm = 9999) (hok : assembleSounding hdr rs = .ok s) :
    s.release_time = none
    ∧ ((∀ r ∈ rs, replaceSentinel r.elapsed_time = none) →
        s.record_valid = List.replicate hdr.num_rec.toNat s.launch_valid_time)
    ∧ ((∃ r ∈ rs, (replaceSentinel r.elapsed_time).isSome) →
        s.record_valid = rs.map (fun r => s.launch_valid_time
          + (60 * ((replaceSentinel r.elapsed_time).getD 0 / 100)
            + (replaceSentinel r.elapsed_time).getD 0 % 100))) := by
  obtain ⟨msl, lv, rel, ts, h1, h2, h3, h4, h5, hs⟩ := assembleSounding_ok_inv hok
  have hrel : rel = none := by
    unfold computeReleaseTime at h3
    rw [if_pos h9] at h3
    exact (Except.ok.inj h3).symm
  subst hrel
  subst hs
  refine ⟨rfl, fun hall => ?_, fun hex => ?_⟩
  · have hallb : (rs.map fun r => replaceSentinel r.elapsed_time).all Option.isNone = true := by
      rw [List.all_eq_true]
      intro e he
      obtain ⟨r, hr, hre⟩ := List.mem_map.mp he
      rw [← hre, hall r hr]
      rfl
    unfold computeRecValidTimes at h4
    simp only [hallb, if_true] at h4
    exact (Except.ok.inj h4).symm
  · obtain ⟨r0, hr0, hsome⟩ := hex
    have hallb : (rs.map fun r => replaceSentinel r.elapsed_time).all Option.isNone = false := by
      rcases hal : (rs.map fun r => replaceSentinel r.elapsed_time).all Option.isNone with _ | _
      · exact hal
      · have := (List.all_eq_true.mp hal) (replaceSentinel r0.elapsed_time)
          (List.mem_map.mpr ⟨r0, hr0, rfl⟩)
        rw [Option.isNone_iff_eq_none] at this
        rw [this] at hsome
        exact absurd hsome (by simp)
    have h4' : recTimesList lv (rs.map fun r => replaceSentinel r.elapsed_time) = .ok ts := by
      unfold computeRecValidTimes at h4
      simpa [hallb] using h4
    have hnn : none ∉ (rs.map fun r => replaceSentinel r.elapsed_time) := by
      intro hm
      rw [recTimesList_of_mem_none hm] at h4'
      exact Except.noConfusion h4'
    have hmap := @recTimesList_of_not_mem_none lv _ hnn
    rw [hmap] at h4'
    have : ts = (rs.map fun r => replaceSentinel r.elapsed_time).map
        (fun e => lv + (60 * (e.getD 0 / 100) + e.getD 0 % 100)) :=
      (Except.ok.inj h4').symm
    rw [this, List.map_map]
    rfl

/-- Claim C5 witness: the sentinel-release header with one elapsed-bearing
record emits no release time and stamps the record 30 minutes after the
launch valid time. -/
theorem claim5_witness :
    hdr9999.release_hhmm = 9999
    ∧ assembleSounding hdr9999 [sampleRecord] = .ok sounding9999
    ∧ sounding9999.release_time = none
    ∧ sounding9999.record_valid = [sampleRecord].map (fun r =>
        sounding9999.launch_valid_time
          + (60 * ((replaceSentinel r.elapsed_time).getD 0 / 100)
            + (replaceSentinel r.elapsed_time).getD 0 % 100)) := by
  have h := claim5_release_9999 hdr9999 [sampleRecord] sounding9999 (by decide) (by decide)
  exact ⟨by decide, by decide, h.1, h.2.2 ⟨sampleRecord, by simp, by decide⟩⟩

/-- Claim C1 counterexample: a header declaring two records followed by a
single data line before end-of-input.  The walker silently truncates the group
to that one line (no structural error is raised); the run aborts only with the
generic polars length-mismatch error, which carries no station or deficit. -/
theorem claim1_counterexample :
    parseStation [hdrLine, dataLine] = .error (.shapeMismatch 2 1)
    ∧ SoundingError.isStructural (.shapeMismatch 2 1) = false
    ∧ dataLinesFor [hdrLine, dataLine] 0 2 = [dataLine] :=
  ⟨by decide, by decide, by decide⟩

/-- Claim C1 (amended): the walker's slice truncates the group of data lines
to those available before end-of-input; a group whose size differs from the
declared count never yields a sounding, failing instead at the final broadcast
step, and no error the assembler can produce is the specification's structural
error. -/
theorem claim1_amended :
    (∀ (lines : List String) (h : Nat) (n : Int),
        (dataLinesFor lines h n).length = min n.toNat (lines.length - (h + 1)))
    ∧ (∀ (hdr : RawHeader) (rs : List RawRecord) (s : Sounding),
        hdr.num_rec ≠ (rs.length : Int) → assembleSounding hdr rs ≠ .ok s)
    ∧ (∀ (hdr : RawHeader) (rs : List RawRecord) (e : SoundingError),
        assembleSounding hdr rs = .error e → e.isStructural = false) := by
  refine ⟨fun lines h n => ?_, fun hdr rs s hne hok => ?_,
    fun hdr rs e herr => assembleSounding_error_inv herr⟩
  · unfold dataLinesFor
    rw [List.length_take, List.length_drop]
  · obtain ⟨-, -, -, -, -, -, -, -, h5, -⟩ := assembleSounding_ok_inv hok
    exact hne h5

/-- Claim C1 (amended) witness: the two-record header paired with a single
record yields no sounding. -/
theorem claim1_amended_witness :
    hdrC1.num_rec ≠ (([sampleRecord] : List RawRecord).length : Int)
    ∧ assembleSounding hdrC1 [sampleRecord] ≠ .ok dummySounding :=
  ⟨by decide, claim1_amended.2.1 hdrC1 [sampleRecord] dummySounding (by decide)⟩

/-- Claim C3 counterexample: on a fully populated single-record sounding the
emitted schema has seventeen columns — `elapsed_time` and `relative_humidity`
are retained and the broadcast columns trail the per-level ones — so it is not
the claimed fifteen-column contract schema. -/
theorem claim3_counterexample :
    soundingColumns [sampleRecord] = .ok sampleColumns
    ∧ soundingColumns [sampleRecord] ≠ .ok specContractColumns
    ∧ "elapsed_time" ∈ sampleColumns
    ∧ "elapsed_time" ∉ specContractColumns := by
  have hcols : soundingColumns [sampleRecord] = .ok sampleColumns := by
    unfold soundingColumns perLevelCols
    simp only [eastward_wind_isNone, northward_wind_isNone]
    decide
  rw [hcols]
  exact ⟨rfl, by decide, by decide, by decide⟩

/-- Claim C3 (amended): the emitted schema is data dependent and not the
fifteen-column contract.  Whenever the two explicit drops succeed and a schema
is emitted, it ends with the seven broadcast columns and retains
`elapsed_time` and `relative_humidity` — which the contract omits — whenever
any record carries a non-missing value for them; and when every record's
`pflag` cell is empty the loop has already dropped that column, so the
explicit drop raises `ColumnNotFoundError` and no schema is emitted at all. -/
theorem claim3_amended (rs : List RawRecord) :
    (∀ cols : List String, soundingColumns rs = .ok cols →
        ∃ pre, cols = pre ++ broadcastNames)
    ∧ ((∃ r ∈ rs, ((decodeRecord r).elapsed_time).isSome) →
        ∀ cols : List String, soundingColumns rs = .ok cols →
          "elapsed_time" ∈ cols)
    ∧ "elapsed_time" ∉ specContractColumns
    ∧ ((∃ r ∈ rs, ((decodeRecord r).relative_humidity).isSome) →
        ∀ cols : List String, soundingColumns rs = .ok cols →
          "relative_humidity" ∈ cols)
    ∧ "relative_humidity" ∉ specContractColumns
    ∧ ((∀ r ∈ rs, r.pflag = "") →
        soundingColumns rs = .error (.columnNotFound "pflag")) := by
  refine ⟨fun cols hok => ⟨_, soundingColumns_ok_inv hok⟩,
    fun hex cols hok => ?_, by decide, fun hex cols hok => ?_, by decide,
    fun hall => ?_⟩
  · obtain ⟨r0, hr0, hsome⟩ := hex
    have hflag : (rs.all fun r => ((decodeRecord r).elapsed_time).isNone) = false := by
      rcases hal : (rs.all fun r => ((decodeRecord r).elapsed_time).isNone) with _ | _
      · rfl
      · have := (List.all_eq_true.mp hal) r0 hr0
        rw [Option.isNone_iff_eq_none] at this
        rw [this] at hsome
        exact absurd hsome (by simp)
    rw [soundingColumns_ok_inv hok]
    apply List.mem_append_left
    apply List.mem_filter.mpr
    refine ⟨?_, by decide⟩
    apply List.mem_filter.mpr
    refine ⟨?_, by decide⟩
    apply List.mem_map.mpr
    refine ⟨("elapsed_time", false), ?_, rfl⟩
    apply List.mem_filter.mpr
    refine ⟨?_, by decide⟩
    unfold perLevelCols
    rw [← hflag]
    simp
  · obtain ⟨r0, hr0, hsome⟩ := hex
    have hflag : (rs.all fun r => ((decodeRecord r).relative_humidity).isNone) = false := by
      rcases hal : (rs.all fun r => ((decodeRecord r).relative_humidity).isNone) with _ | _
      · rfl
      · have := (List.all_eq_true.mp hal) r0 hr0
        rw [Option.isNone_iff_eq_none] at this
        rw [this] at hsome
        exact absurd hsome (by simp)
    rw [soundingColumns_ok_inv hok]
    apply List.mem_append_left
    apply List.mem_filter.mpr
    refine ⟨?_, by decide⟩
    apply List.mem_filter.mpr
    refine ⟨?_, by decide⟩
    apply List.mem_map.mpr
    refine ⟨("relative_humidity", false), ?_, rfl⟩
    apply List.mem_filter.mpr
    refine ⟨?_, by decide⟩
    unfold perLevelCols
    rw [← hflag]
    simp
  · have hpf : (rs.all fun r => r.pflag == "") = true :=
      List.all_eq_true.mpr (fun r hr => by rw [hall r hr]; rfl)
    have hnotmem :
        "pflag" ∉ ((perLevelCols rs).filter (fun c => !c.2)).map Prod.fst := by
      intro hmem
      rw [List.mem_map] at hmem
      obtain ⟨p, hp, hfst⟩ := hmem
      rw [List.mem_filter] at hp
      obtain ⟨hpmem, hflag⟩ := hp
      obtain ⟨n, b⟩ := p
      simp only at hfst
      subst hfst
      unfold perLevelCols at hpmem
      simp at hpmem
      rw [hpmem, hpf] at hflag
      exact absurd hflag (by simp)
    have hnc :
        (((perLevelCols rs).filter (fun c => !c.2)).map Prod.fst).contains "pflag"
          = false := by
      rcases hc : (((perLevelCols rs).filter (fun c => !c.2)).map Prod.fst).contains
          "pflag" with _ | _
      · exact hc
      · exact absurd (List.mem_of_elem_eq_true hc) hnotmem
    have hfil : (["pflag", "zflag", "tflag"] : List String).filter
        (fun d => !((((perLevelCols rs).filter (fun c => !c.2)).map Prod.fst).contains d))
        = "pflag" :: (["zflag", "tflag"] : List String).filter
          (fun d => !((((perLevelCols rs).filter (fun c => !c.2)).map Prod.fst).contains d)) := by
      rw [List.filter_cons, hnc]
      simp
    have hdrop : dfDrop (((perLevelCols rs).filter (fun c => !c.2)).map Prod.fst)
        ["pflag", "zflag", "tflag"] = .error (.columnNotFound "pflag") := by
      unfold dfDrop
      rw [hfil]
    unfold soundingColumns
    simp only [hdrop]

/-- Claim C3 (amended) witness: the fully populated record makes both
non-contract columns appear in the emitted schema, and a sounding whose flag
cells are all empty makes the explicit drop raise `ColumnNotFoundError`. -/
theorem claim3_amended_witness :
    "elapsed_time" ∈ sampleColumns
    ∧ "relative_humidity" ∈ sampleColumns
    ∧ soundingColumns [surfaceRecord850] = .error (.columnNotFound "pflag") := by
  have hok : soundingColumns [sampleRecord] = .ok sampleColumns := by
    unfold soundingColumns perLevelCols
    simp only [eastward_wind_isNone, northward_wind_isNone]
    decide
  exact ⟨(claim3_amended [sampleRecord]).2.1
      ⟨sampleRecord, by simp, by decide⟩ sampleColumns hok,
    (claim3_amended [sampleRecord]).2.2.2.1
      ⟨sampleRecord, by simp, by decide⟩ sampleColumns hok,
    (claim3_amended [surfaceRecord850]).2.2.2.2.2 (by decide)⟩

end LRC
